import Mathlib

/-!
Shallow embedding of `nsp2clab.py`: the session lifecycle in `main`
(`getToken`, `retrieveNspL2IetfTopo`, `revokeToken`) and the pure
translation `generate_topology`, together with theorems checking the
specification's claims against these definitions.
-/

set_option autoImplicit false

namespace Nsp2clab

/-- Exceptions that the modelled Python code can raise. `keyError k` is
`KeyError(k)` from a dict lookup or `os.environ` lookup, `indexError` from
list indexing, `typeError` from using a value at the wrong type,
`proxyError` is `requests.exceptions.ProxyError`, `requestException` any
other exception raised by a `requests` call, and `jsonDecodeError` the
error `.json()` raises on a body that is not valid JSON. -/
inductive PyErr where
  | keyError (k : String)
  | indexError
  | typeError
  | proxyError
  | requestException
  | jsonDecodeError
  deriving DecidableEq, Repr

/-- JSON values as the program manipulates them: strings, arrays, and
objects (Python dicts with string keys, kept as ordered key/value lists
with Python dict insertion-order semantics). The numeric and null cases
are irrelevant to every operation the program performs and are omitted. -/
inductive Json where
  | str (s : String)
  | arr (elems : List Json)
  | obj (fields : List (String × Json))

/-- Lookup in a Python dict modelled as an ordered key/value list. -/
def dictGet (kvs : List (String × Json)) (k : String) : Option Json :=
  match kvs.find? (fun p => p.1 == k) with
  | some p => some p.2
  | none => none

/-- Assignment `d[k] = v` on a Python dict: an existing key keeps its
position and gets the new value, a new key is appended at the end. -/
def dictSet (kvs : List (String × Json)) (k : String) (v : Json) :
    List (String × Json) :=
  if kvs.any (fun p => p.1 == k) then
    kvs.map (fun p => if p.1 == k then (k, v) else p)
  else
    kvs ++ [(k, v)]

/-- Python `j[k]` for a string key: a value on objects holding the key,
`KeyError` on objects missing it, `TypeError` on non-objects. -/
def Json.getKey : Json → String → Except PyErr Json
  | .obj kvs, k =>
    match dictGet kvs k with
    | some v => .ok v
    | none => .error (.keyError k)
  | _, _ => .error .typeError

/-- Python iteration over a value expected to be a JSON array. -/
def Json.asArr : Json → Except PyErr (List Json)
  | .arr xs => .ok xs
  | _ => .error .typeError

/-- Python `j[0]` on a JSON array: first element or `IndexError`. -/
def Json.at0 : Json → Except PyErr Json
  | .arr (x :: _) => .ok x
  | .arr [] => .error .indexError
  | _ => .error .typeError

/-- A value expected to be a JSON string. -/
def Json.asStr : Json → Except PyErr String
  | .str s => .ok s
  | _ => .error .typeError

/-- Python `str.split("--")` on the character list of the string:
non-overlapping leftmost matches of the two-dash delimiter; a string
without the delimiter yields the one-element list holding the whole
string, so the result is never empty. -/
def splitDD : List Char → List (List Char)
  | [] => [[]]
  | [c] => [[c]]
  | c1 :: c2 :: rest =>
    if c1 == '-' && c2 == '-' then
      [] :: splitDD rest
    else
      let s := splitDD (c2 :: rest)
      (c1 :: s.headD []) :: s.tail

/-- Python `name.split("--")` at the string level. -/
def pySplitDD (s : String) : List String :=
  (splitDD s.data).map (fun l => String.mk l)

/-- Python `l[0]` on a list of strings. -/
def pyIdx0 : List String → Except PyErr String
  | [] => .error .indexError
  | x :: _ => .ok x

/-- Python `l[-1]` on a list of strings. -/
def pyIdxLast (l : List String) : Except PyErr String :=
  match l.getLast? with
  | some x => .ok x
  | none => .error .indexError

/-- The fixed attribute object stored for every translated node:
`kind` and `image` are constants, `mgmt-ipv4` is the address passed in. -/
def clabNode (mgmt : Json) : Json :=
  .obj [("kind", .str "nokia-sros"), ("image", .str "containerlab/vr-sros"),
        ("mgmt-ipv4", mgmt)]

/-- The link entry appended for every translated link. -/
def clabLink (src dst : String) : Json :=
  .obj [("endpoints", .arr [.str src, .str dst])]

/-- The node loop of `generate_topology` (lines 148-152): for each node,
read `node-id` (bound but unused, still a `KeyError` if absent), the
l2-node-attributes `name` and the first `management-address`, and assign
into the nodes dict under the name. -/
def procNodes : List Json → List (String × Json) →
    Except PyErr (List (String × Json))
  | [], acc => .ok acc
  | node :: rest, acc => do
    let _nid ← node.getKey "node-id"
    let attrs ← node.getKey "ietf-l2-topology:l2-node-attributes"
    let name ← (← attrs.getKey "name").asStr
    let mgmt ← (← attrs.getKey "management-address").at0
    procNodes rest (dictSet acc name (clabNode mgmt))

/-- The link loop of `generate_topology` (lines 155-158): for each link,
split the l2-link-attributes `name` on the `--` delimiter, take element 0
as source and element -1 as destination, and append the endpoint pair. -/
def procLinks : List Json → List Json → Except PyErr (List Json)
  | [], acc => .ok acc
  | link :: rest, acc => do
    let attrs ← link.getKey "ietf-l2-topology:l2-link-attributes"
    let name ← (← attrs.getKey "name").asStr
    let src ← pyIdx0 (pySplitDD name)
    let dst ← pyIdxLast (pySplitDD name)
    procLinks rest (acc ++ [clabLink src dst])

/-- The translation `generate_topology(json_data)`: builds the target
document from the first entry of `ietf-network:network`, its `node` list
and its `ietf-network-topology:link` list. Any missing field or wrong
shape surfaces as the Python exception the source would raise. -/
def generate_topology (json_data : Json) : Except PyErr Json := do
  let net0 ← (← json_data.getKey "ietf-network:network").at0
  let nodes ← (← net0.getKey "node").asArr
  let nodesMap ← procNodes nodes []
  let links ← (← net0.getKey "ietf-network-topology:link").asArr
  let linkList ← procLinks links []
  .ok (.obj [("topology",
        .obj [("nodes", .obj nodesMap), ("links", .arr linkList)])])

/-- Source-document fixture: an IETF node with the given `node-id`,
display name and `management-address` array. -/
def mkNode (id name : String) (addrs : List Json) : Json :=
  .obj [("node-id", .str id),
        ("ietf-l2-topology:l2-node-attributes",
          .obj [("name", .str name),
                ("management-address", .arr addrs)])]

/-- Source-document fixture: an IETF link with the given name. -/
def mkLink (name : String) : Json :=
  .obj [("ietf-l2-topology:l2-link-attributes",
          .obj [("name", .str name)])]

/-- Source-document fixture: the IETF L2 document wrapping the given node
and link collections. -/
def ietfDoc (nodes links : List Json) : Json :=
  .obj [("ietf-network:network",
          .arr [.obj [("node", .arr nodes),
                      ("ietf-network-topology:link", .arr links)]])]

/-- Target-document fixture: the containerlab document with the given
nodes mapping and links sequence. -/
def clabDoc (nodes : List (String × Json)) (links : List Json) : Json :=
  .obj [("topology", .obj [("nodes", .obj nodes), ("links", .arr links)])]

/-- Result of one HTTP request as the environment delivers it: the
request raises a proxy error, raises some other requests exception, or
yields a response with a status code and a body that either parses as
JSON (`some j`) or does not (`none`, so `.json()` raises). -/
inductive NetResult where
  | proxyError
  | requestException
  | response (status : Nat) (jsonBody : Option Json)

/-- Observable steps of one run of `main`: HTTP requests (host and path
recorded separately, the source builds the URL as
`"https://" + host + path`), printed diagnostics, and the output-file
write. -/
inductive Event where
  | httpPost (host path : String)
  | httpGet (host path : String)
  | printed (msg : String)
  | fileWrite (outputPath : String)
  deriving DecidableEq, Repr

/-- How the process ends: `exited c` is `sys.exit(c)` or falling off the
end of `main` (then `c = 0`), `uncaught e` is the process dying on the
uncaught exception `e`. -/
inductive Outcome where
  | exited (code : Nat)
  | uncaught (e : PyErr)
  deriving DecidableEq, Repr

/-- The environment of one run: the results of the three HTTP calls in
program order, and the two `os.environ` entries `main` reads. -/
structure World where
  tokenResp : NetResult
  topoResp : NetResult
  revokeResp : NetResult
  envNspServer : Option String
  envProxyUser : Option String

/-- Everything a run produces: its event trace, the document written to
the output file (if the run got that far), and how the process ended. -/
structure RunResult where
  events : List Event
  written : Option Json
  outcome : Outcome

/-- Path of the token endpoint (line 52). -/
def tokenPath : String := "/rest-gateway/rest/api/v1/auth/token"

/-- Path of the revocation endpoint (line 91). -/
def revocationPath : String := "/rest-gateway/rest/api/v1/auth/revocation"

/-- Path of the topology resource (lines 123-127). -/
def topoPath : String := "/restconf/data/ietf-network:networks/network=L2Topology"

/-- Message tag for the proxy-failure diagnostic printed in `main`. -/
def proxyFailMsg : String := "Failed to authenticate on proxy"

/-- Message tag for the KeyError diagnostic printed in `main`. -/
def credFailMsg : String := "KeyError while requesting Bearer token"

/-- Literal printed by `revokeToken` on a 200 revocation response. -/
def revOkMsg : String := "Succesfully revoked token."

/-- Literal printed by `revokeToken` on a non-200 revocation response. -/
def revFailMsg : String := "Error after token revocation attempt."

/-- The call `getToken(nsp_server, username, password, proxies)`: one
POST to the token endpoint of `nsp_server`; returns `token.json()`, or
the exception the request or `.json()` raises. The credentials only feed
the Basic-auth header and the network result comes from the environment,
so they do not influence the modelled value. -/
def getToken (nsp_server _username _password : String) (r : NetResult) :
    List Event × Except PyErr Json :=
  ([.httpPost nsp_server tokenPath],
    match r with
    | .proxyError => .error .proxyError
    | .requestException => .error .requestException
    | .response _ none => .error .jsonDecodeError
    | .response _ (some j) => .ok j)

/-- The call `retrieveNspL2IetfTopo(nsp_server, proxies, headers)`: one
GET to the topology resource of `nsp_server`; returns `l2topo.json()`
whatever the status code is, or the exception the request or `.json()`
raises. -/
def retrieveNspL2IetfTopo (nsp_server : String) (r : NetResult) :
    List Event × Except PyErr Json :=
  ([.httpGet nsp_server topoPath],
    match r with
    | .proxyError => .error .proxyError
    | .requestException => .error .requestException
    | .response _ none => .error .jsonDecodeError
    | .response _ (some j) => .ok j)

/-- The call `revokeToken(nsp_server, username, password, token,
proxies)`: one POST to the revocation endpoint of `nsp_server`; on any
response it only inspects `status_code` and prints one of two messages,
on a raised exception the exception propagates. -/
def revokeToken (nsp_server _username _password _token : String)
    (r : NetResult) : List Event × Except PyErr Unit :=
  match r with
  | .proxyError => ([.httpPost nsp_server revocationPath], .error .proxyError)
  | .requestException =>
    ([.httpPost nsp_server revocationPath], .error .requestException)
  | .response status _ =>
    ([.httpPost nsp_server revocationPath,
      .printed (if status == 200 then revOkMsg else revFailMsg)], .ok ())

/-- The run of `main(server, username, password, output, proxy)` against
the environment `w`, with the credentials already resolved (the
interactive prompting the source does when they are empty is peripheral
I/O outside this model). Mirrors the source line by line: the
`try`-block around `getToken` and `token["access_token"]` with its
`ProxyError` handler (whose diagnostic f-string evaluates
`os.environ["PROXY_USER"]` before anything is printed) and its `KeyError`
handler, both ending in `sys.exit(0)`; then the topology GET aimed at
`os.environ["NSP_SERVER"]`, the revocation POST aimed at `server`,
`generate_topology`, and the output-file write (default
`data.clab.yaml`). Any exception outside the `try`-block kills the
process. -/
def main (server username password : String) (output : Option String)
    (_proxy : Option String) (w : World) : RunResult :=
  let (evTok, tokRes) := getToken server username password w.tokenResp
  match tokRes with
  | .error .proxyError =>
    match w.envProxyUser with
    | none => ⟨evTok, none, .uncaught (.keyError "PROXY_USER")⟩
    | some _ => ⟨evTok ++ [.printed proxyFailMsg], none, .exited 0⟩
  | .error (.keyError _) => ⟨evTok ++ [.printed credFailMsg], none, .exited 0⟩
  | .error e => ⟨evTok, none, .uncaught e⟩
  | .ok tokenJson =>
    match tokenJson.getKey "access_token" with
    | .error (.keyError _) =>
      ⟨evTok ++ [.printed credFailMsg], none, .exited 0⟩
    | .error e => ⟨evTok, none, .uncaught e⟩
    | .ok tokenVal =>
      match tokenVal with
      | .str token =>
        match w.envNspServer with
        | none => ⟨evTok, none, .uncaught (.keyError "NSP_SERVER")⟩
        | some envServer =>
          let (evTopo, topoRes) := retrieveNspL2IetfTopo envServer w.topoResp
          match topoRes with
          | .error e => ⟨evTok ++ evTopo, none, .uncaught e⟩
          | .ok l2topo =>
            let (evRev, revRes) :=
              revokeToken server username password token w.revokeResp
            match revRes with
            | .error e => ⟨evTok ++ evTopo ++ evRev, none, .uncaught e⟩
            | .ok _ =>
              match generate_topology l2topo with
              | .error e => ⟨evTok ++ evTopo ++ evRev, none, .uncaught e⟩
              | .ok topo =>
                ⟨evTok ++ evTopo ++ evRev
                    ++ [.fileWrite (output.getD "data.clab.yaml")],
                  some topo, .exited 0⟩
      | _ => ⟨evTok, none, .uncaught .typeError⟩

/-! Helper lemmas about the split on the `--` delimiter. -/

theorem splitDD_ne_nil : ∀ l : List Char, splitDD l ≠ []
  | [] => by simp [splitDD]
  | [_] => by simp [splitDD]
  | c1 :: c2 :: rest => by
    simp only [splitDD]
    split
    · simp
    · simp

theorem splitDD_eq_singleton : ∀ l x : List Char, splitDD l = [x] → x = l
  | [], x, h => by
    simp only [splitDD, List.cons.injEq, and_true] at h
    exact h.symm
  | [c], x, h => by
    simp only [splitDD, List.cons.injEq, and_true] at h
    exact h.symm
  | c1 :: c2 :: rest, x, h => by
    simp only [splitDD] at h
    by_cases hd : (c1 == '-' && c2 == '-') = true
    · rw [if_pos hd] at h
      simp only [List.cons.injEq] at h
      exact absurd h.2 (splitDD_ne_nil rest)
    · rw [if_neg hd] at h
      simp only [List.cons.injEq] at h
      obtain ⟨hx, ht⟩ := h
      rcases hs : splitDD (c2 :: rest) with _ | ⟨a, t⟩
      · exact absurd hs (splitDD_ne_nil _)
      · rw [hs] at hx ht
        simp only [List.tail_cons] at ht
        subst ht
        have ha : a = c2 :: rest := splitDD_eq_singleton (c2 :: rest) a hs
        simp only [List.headD_cons] at hx
        rw [ha] at hx
        exact hx.symm

/-- A name whose split on the delimiter has a single segment splits into
exactly the whole name. -/
theorem pySplitDD_length_one (n : String) (h : (pySplitDD n).length = 1) :
    pySplitDD n = [n] := by
  unfold pySplitDD at h ⊢
  rcases hs : splitDD n.data with _ | ⟨a, t⟩
  · exact absurd hs (splitDD_ne_nil _)
  · rw [hs] at h
    have ht : t = [] := by
      rcases t with _ | ⟨b, t2⟩
      · rfl
      · simp only [List.length_map, List.length_cons] at h
        omega
    subst ht
    have ha : a = n.data := splitDD_eq_singleton n.data a hs
    subst ha
    rfl

/-- Reduction of the translation on the document fixture: once the two
loops are known to succeed, the translation assembles the target
document from their results. -/
theorem generate_topology_ietfDoc (nodes links : List Json)
    (nm : List (String × Json)) (ll : List Json)
    (hn : procNodes nodes [] = .ok nm) (hl : procLinks links [] = .ok ll) :
    generate_topology (ietfDoc nodes links) = .ok (clabDoc nm ll) := by
  show (procNodes nodes [] >>= fun nodesMap =>
        procLinks links [] >>= fun linkList =>
        Except.ok (Json.obj [("topology",
          Json.obj [("nodes", Json.obj nodesMap), ("links", Json.arr linkList)])]))
      = Except.ok (clabDoc nm ll)
  rw [hn, hl]
  rfl

/-- C9: translating a document whose node collection and link collection
are both empty yields exactly the target document with an empty nodes
mapping and an empty links sequence, and no error is raised. -/
theorem c9_empty_collections :
    generate_topology (ietfDoc [] []) = .ok (clabDoc [] []) := rfl

/-- C8: for every source node, the target entry's mgmt-ipv4 field equals
the first element of the node's management-address sequence; the
remaining addresses are ignored. -/
theorem c8_first_management_address (id name : String) (a : Json)
    (rest : List Json) :
    generate_topology (ietfDoc [mkNode id name (a :: rest)] []) =
      .ok (clabDoc [(name, clabNode a)] []) := rfl

/-- C7: when two source nodes derive the same display name, the target
node mapping contains exactly one entry under that name, whose attributes
equal those of the later-processed node. -/
theorem c7_duplicate_name_last_wins (id1 id2 name : String) (a1 a2 : Json)
    (r1 r2 : List Json) :
    generate_topology
        (ietfDoc [mkNode id1 name (a1 :: r1), mkNode id2 name (a2 :: r2)] []) =
      .ok (clabDoc [(name, clabNode a2)] []) := by
  apply generate_topology_ietfDoc
  · show Except.ok (dictSet (dictSet [] name (clabNode a1)) name (clabNode a2))
        = Except.ok [(name, clabNode a2)]
    simp [dictSet]
  · rfl

/-- C2: for every link whose name contains the delimiter (its split has
at least two segments), the translation emits the endpoint pair made of
the first and the last segment of the split, without error. -/
theorem c2_delimited_link_first_last (n a b : String) (t : List String)
    (h : pySplitDD n = a :: b :: t) :
    generate_topology (ietfDoc [] [mkLink n]) =
      .ok (clabDoc []
        [clabLink a ((a :: b :: t).getLast (List.cons_ne_nil a (b :: t)))]) := by
  apply generate_topology_ietfDoc
  · rfl
  · show (pyIdx0 (pySplitDD n) >>= fun src =>
          pyIdxLast (pySplitDD n) >>= fun dst =>
          procLinks [] ([] ++ [clabLink src dst])) = _
    rw [h]
    have hlast : pyIdxLast (a :: b :: t) =
        .ok ((a :: b :: t).getLast (List.cons_ne_nil a (b :: t))) := by
      unfold pyIdxLast
      rw [List.getLast?_eq_getLast_of_ne_nil (List.cons_ne_nil a (b :: t))]
    show (pyIdxLast (a :: b :: t) >>= fun dst =>
          procLinks [] ([] ++ [clabLink a dst])) = _
    rw [hlast]
    rfl

/-- C2 witness: the name with two delimiters splits into three segments
and translates to the endpoint pair of the first and last of them. -/
theorem c2_delimited_link_first_last_witness :
    pySplitDD "A--B--C" = ["A", "B", "C"] ∧
    generate_topology (ietfDoc [] [mkLink "A--B--C"]) =
      .ok (clabDoc [] [clabLink "A" "C"]) :=
  ⟨rfl, by
    simpa using c2_delimited_link_first_last "A--B--C" "A" "B" ["C"] rfl⟩

/-- C3 counterexample: the link name without the delimiter does not make
the translation fail; it translates to the endpoint pair repeating the
whole name. -/
theorem c3_counterexample_no_delimiter_ok :
    generate_topology (ietfDoc [] [mkLink "A"]) =
      .ok (clabDoc [] [clabLink "A" "A"]) := rfl

/-- C3 amended: for every link whose name does not contain the delimiter
(its split has a single segment), the translation does not fail; it emits
the endpoint pair whose source and destination both equal the whole
name. -/
theorem c3_amended_no_delimiter_passthrough (n : String)
    (h : (pySplitDD n).length = 1) :
    generate_topology (ietfDoc [] [mkLink n]) =
      .ok (clabDoc [] [clabLink n n]) := by
  have hn := pySplitDD_length_one n h
  apply generate_topology_ietfDoc
  · rfl
  · show (pyIdx0 (pySplitDD n) >>= fun src =>
          pyIdxLast (pySplitDD n) >>= fun dst =>
          procLinks [] ([] ++ [clabLink src dst])) = _
    rw [hn]
    rfl

/-- C3 amended witness: at the single-character name the hypothesis holds
by computation and both endpoints are that name. -/
theorem c3_amended_no_delimiter_passthrough_witness :
    (pySplitDD "A").length = 1 ∧
    generate_topology (ietfDoc [] [mkLink "A"]) =
      .ok (clabDoc [] [clabLink "A" "A"]) :=
  ⟨rfl, c3_amended_no_delimiter_passthrough "A" rfl⟩

/-- C4 counterexample: a topology response with status 500 and a JSON
body is returned as the document; no error carrying the status code and
body is raised. -/
theorem c4_counterexample_status_ignored :
    (retrieveNspL2IetfTopo "nsp.example"
        (.response 500 (some (.obj [("error", .str "unauthorized")])))).2 =
      .ok (.obj [("error", .str "unauthorized")]) := rfl

/-- C4 amended: for every HTTP response to the topology GET whose body
parses as JSON, the query operation returns the parsed body as the
document regardless of the status code; a non-success status is not
detected and never surfaces as an error. -/
theorem c4_amended_body_returned_regardless (nsp_server : String)
    (status : Nat) (j : Json) :
    (retrieveNspL2IetfTopo nsp_server (.response status (some j))).2 =
      .ok j := rfl

/-- C5 counterexample: a run that acquires a token and whose topology GET
raises a connection-level exception dies on that exception with zero
revocation attempts, so revocation is not attempted in every such run. -/
theorem c5_counterexample_query_raises_no_revocation :
    (main "10.0.0.1" "user" "pw" none none
        ⟨.response 200 (some (.obj [("access_token", .str "tok")])),
         .requestException, .response 200 none,
         some "10.0.0.1", none⟩).events =
      [.httpPost "10.0.0.1" tokenPath, .httpGet "10.0.0.1" topoPath] ∧
    (main "10.0.0.1" "user" "pw" none none
        ⟨.response 200 (some (.obj [("access_token", .str "tok")])),
         .requestException, .response 200 none,
         some "10.0.0.1", none⟩).outcome = .uncaught .requestException := by
  constructor <;> rfl

/-- C5 amended: in every run that successfully acquires a token and
whose topology GET returns a parsed body, token revocation is attempted
exactly once before the process exits, even when that body is an error
response; and a revocation response with a non-success status is only
reported by a printed message, never escalated: the run's outcome is the
same as if revocation had returned status 200. -/
theorem c5_amended_revocation_once_when_query_returns
    (server username password : String) (output proxy : Option String)
    (w : World) (ts : Nat) (tj : List (String × Json)) (tok : String)
    (hresp : w.tokenResp = .response ts (some (.obj tj)))
    (htok : dictGet tj "access_token" = some (.str tok))
    (envServer : String) (henv : w.envNspServer = some envServer)
    (qs : Nat) (body : Json) (hq : w.topoResp = .response qs (some body))
    (rs : Nat) (rb : Option Json) (hr : w.revokeResp = .response rs rb) :
    ((main server username password output proxy w).events.count
        (.httpPost server revocationPath) = 1) ∧
    (rs ≠ 200 →
      .printed revFailMsg ∈
        (main server username password output proxy w).events) ∧
    ((main server username password output proxy w).outcome =
      (main server username password output proxy
        { w with revokeResp := .response 200 rb }).outcome) := by
  unfold main getToken retrieveNspL2IetfTopo revokeToken
  rw [hresp]
  dsimp only [Json.getKey]
  rw [htok, henv, hq, hr]
  dsimp only
  refine ⟨?_, ?_, ?_⟩
  · cases hg : generate_topology body <;>
      simp [List.count_append, List.count_cons, tokenPath, revocationPath,
        topoPath]
  · intro hrs
    have hb : (rs == 200) = false := by simpa using hrs
    cases hg : generate_topology body <;> simp [hb]
  · cases hg : generate_topology body <;> rfl

/-- C5 witness: a 404 topology body with a 500 revocation response still
yields exactly one revocation attempt and the failure report. -/
theorem c5_amended_revocation_once_when_query_returns_witness :
    ((main "10.0.0.1" "user" "pw" none none
        ⟨.response 200 (some (.obj [("access_token", .str "tok")])),
         .response 404 (some (.obj [("error", .str "not found")])),
         .response 500 none, some "10.0.0.2", none⟩).events.count
        (.httpPost "10.0.0.1" revocationPath) = 1) ∧
    .printed revFailMsg ∈
      (main "10.0.0.1" "user" "pw" none none
        ⟨.response 200 (some (.obj [("access_token", .str "tok")])),
         .response 404 (some (.obj [("error", .str "not found")])),
         .response 500 none, some "10.0.0.2", none⟩).events := by
  have h := c5_amended_revocation_once_when_query_returns
    "10.0.0.1" "user" "pw" none none
    ⟨.response 200 (some (.obj [("access_token", .str "tok")])),
     .response 404 (some (.obj [("error", .str "not found")])),
     .response 500 none, some "10.0.0.2", none⟩
    200 [("access_token", .str "tok")] "tok" rfl rfl
    "10.0.0.2" rfl 404 (.obj [("error", .str "not found")]) rfl
    500 none rfl
  exact ⟨h.1, h.2.1 (by decide)⟩

/-- C6: when the token-endpoint response carries no access_token field,
the run prints the credential diagnostic and exits with status 0, with no
network call after the token POST and no output file written. -/
theorem c6_missing_access_token_aborts (server username password : String)
    (output proxy : Option String) (w : World) (ts : Nat)
    (tj : List (String × Json))
    (hresp : w.tokenResp = .response ts (some (.obj tj)))
    (hmiss : dictGet tj "access_token" = none) :
    main server username password output proxy w =
      ⟨[.httpPost server tokenPath, .printed credFailMsg], none,
        .exited 0⟩ := by
  unfold main getToken
  rw [hresp]
  dsimp only [Json.getKey]
  rw [hmiss]
  rfl

/-- C6 witness: a 401 token response whose body lacks access_token ends
the run at exit status 0 after only the token POST, writing nothing. -/
theorem c6_missing_access_token_aborts_witness :
    main "10.0.0.1" "user" "pw" none none
        ⟨.response 401 (some (.obj [("error", .str "bad credentials")])),
         .response 200 none, .response 200 none, none, none⟩ =
      ⟨[.httpPost "10.0.0.1" tokenPath, .printed credFailMsg], none,
        .exited 0⟩ :=
  c6_missing_access_token_aborts "10.0.0.1" "user" "pw" none none
    ⟨.response 401 (some (.obj [("error", .str "bad credentials")])),
     .response 200 none, .response 200 none, none, none⟩
    401 [("error", .str "bad credentials")] rfl rfl

/-- C10: when the token request raises a proxy-layer error and the
PROXY_USER environment variable is unset, the handler dies on the
KeyError raised while formatting its diagnostic: nothing is printed, the
sys.exit call is never reached, and the process dies on the KeyError. -/
theorem c10_proxy_handler_keyerror (server username password : String)
    (output proxy : Option String) (w : World)
    (h1 : w.tokenResp = .proxyError) (h2 : w.envProxyUser = none) :
    main server username password output proxy w =
      ⟨[.httpPost server tokenPath], none,
        .uncaught (.keyError "PROXY_USER")⟩ := by
  unfold main getToken
  rw [h1, h2]

/-- C10 witness: a proxy error with PROXY_USER unset kills the run with
the uncaught KeyError after only the token POST. -/
theorem c10_proxy_handler_keyerror_witness :
    main "10.0.0.1" "user" "pw" none none
        ⟨.proxyError, .response 200 none, .response 200 none, none, none⟩ =
      ⟨[.httpPost "10.0.0.1" tokenPath], none,
        .uncaught (.keyError "PROXY_USER")⟩ :=
  c10_proxy_handler_keyerror "10.0.0.1" "user" "pw" none none
    ⟨.proxyError, .response 200 none, .response 200 none, none, none⟩
    rfl rfl

/-- C1: with the server argument 10.0.0.1 and the NSP_SERVER environment
variable set to 10.0.0.2, a run that acquires, uses and revokes a token
issues the token POST and the revocation POST to 10.0.0.1 but the
authenticated topology GET to 10.0.0.2 — a different server than the one
the caller supplied and the token was acquired from. -/
theorem c1_topology_get_uses_env_server :
    (main "10.0.0.1" "user" "pw" none none
        ⟨.response 200 (some (.obj [("access_token", .str "tok")])),
         .response 200 (some (ietfDoc [] [])), .response 200 none,
         some "10.0.0.2", none⟩).events =
      [.httpPost "10.0.0.1" tokenPath, .httpGet "10.0.0.2" topoPath,
       .httpPost "10.0.0.1" revocationPath, .printed revOkMsg,
       .fileWrite "data.clab.yaml"] ∧
    ("10.0.0.2" : String) ≠ "10.0.0.1" := by
  constructor
  · rfl
  · decide

end Nsp2clab
